import Mathlib

/-
Shallow embedding of the music recommendation engine in
src/recommendation_system/app.py (a Streamlit app over pandas/NumPy/sklearn).

Modelling conventions:
* A dataframe is a `List Song`; a dataframe row is a pair `(i, s)` of its
  RangeIndex position (load_data resets the index to 0..n-1) and the song.
* Numeric audio features are exact rationals; the similarity / ranking layer
  (which involves square roots from StandardScaler and cosine similarity) is
  real-valued.  `popularity` is a non-negative integer score (0..100 in the
  dataset; the code stores it as int16).
* `pandas.DataFrame.nlargest n col` is modelled by a stable descending sort on
  the key followed by `take n` (pandas keep=first semantics).
* The float division `popularity / max_popularity` is total real division in
  the ranking pipeline; `normalizedPopularity` additionally records whether
  that float division is defined (dividing by a zero maximum yields NaN).
* The randomness of `df.sample` is abstracted by an explicit permutation
  argument; sampling more rows than the catalog has raises (ValueError),
  modelled with `Except`.
-/

/-- A catalog row: the columns of the dataset that the recommendation engine
reads.  `features` is the 9-entry audio feature vector in the order of
`AUDIO_FEATURES`. -/
structure Song where
  track_genre : String
  popularity : ℕ
  features : Fin 9 → ℚ
deriving DecidableEq

/-- Python `str.lower()` on the ASCII genre strings of the dataset, written
with a structural map so that it evaluates inside the kernel. -/
def lowerString (s : String) : String := String.mk (s.data.map Char.toLower)

/-- Rational subtraction written through `mkRat` so that it evaluates inside
the kernel (`Rat.sub` is irreducible); `ratSub_eq` shows it is subtraction. -/
def ratSub (a b : ℚ) : ℚ :=
  mkRat (a.num * (b.den : ℤ) - b.num * (a.den : ℤ)) (a.den * b.den)

/-- The 9 numeric columns used for similarity scoring (app.py line 47). -/
def AUDIO_FEATURES : List String :=
  ["danceability", "energy", "loudness", "speechiness",
   "acousticness", "instrumentalness", "liveness", "valence", "tempo"]

/-- The danceability column is entry 0 of the feature vector. -/
def Song.danceability (s : Song) : ℚ := s.features 0

/-- The energy column is entry 1 of the feature vector. -/
def Song.energy (s : Song) : ℚ := s.features 1

/-- The valence column is entry 7 of the feature vector. -/
def Song.valence (s : Song) : ℚ := s.features 7

/-- Build a song from its genre, popularity and the three named audio
features the filters read (the remaining feature entries are 0). -/
def mkSong (genre : String) (pop : ℕ) (d e v : ℚ) : Song :=
  ⟨genre, pop, fun j => if j = 0 then d else if j = 1 then e else if j = 7 then v else 0⟩

/-- Placeholder row used for out-of-range positional access. -/
def defaultSong : Song := ⟨"", 0, fun _ => 0⟩

/-- The four age buckets returned by `get_age_group` (app.py lines 84-93). -/
inductive AgeGroup where
  | Teen
  | YoungAdult
  | Adult
  | Senior
deriving DecidableEq

/-- The per-bucket preference record stored in the `age_groups` dict
(app.py lines 15-44). -/
structure AgePrefs where
  genres : List String
  min_danceability : ℚ
  min_energy : ℚ
  min_valence : ℚ
  description : String
deriving DecidableEq

/-- The `age_groups` preference table (app.py lines 15-44).  The thresholds
0.6, 0.7, ... of the source are written `mkRat 6 10`, `mkRat 7 10`, ... so
that they evaluate inside the kernel. -/
def age_groups : AgeGroup → AgePrefs
  | .Teen =>
    ⟨["pop", "hip-hop", "edm", "dance", "electronic"],
     mkRat 6 10, mkRat 7 10, mkRat 5 10,
     "High energy, danceable pop and hip-hop hits"⟩
  | .YoungAdult =>
    ⟨["pop", "indie", "rock", "alternative", "hip-hop"],
     mkRat 5 10, mkRat 6 10, mkRat 4 10,
     "Mix of popular and indie tracks with good energy"⟩
  | .Adult =>
    ⟨["rock", "jazz", "acoustic", "blues", "folk", "country"],
     mkRat 4 10, mkRat 5 10, mkRat 3 10,
     "More mature sounds with acoustic and rock elements"⟩
  | .Senior =>
    ⟨["classical", "jazz", "acoustic", "blues", "folk", "oldies"],
     mkRat 3 10, mkRat 4 10, mkRat 3 10,
     "Timeless classics and acoustic sounds"⟩

/-- `get_age_group` (app.py lines 84-93): map an age to its bucket. -/
def get_age_group (age : ℤ) : AgeGroup :=
  if age < 20 then .Teen
  else if age < 30 then .YoungAdult
  else if age < 50 then .Adult
  else .Senior

/-- The rows of a dataframe: each song paired with its 0-based index. -/
def rows (df : List Song) : List (ℕ × Song) := df.enum

/-- The popularity of a row. -/
def rowPopularity (r : ℕ × Song) : ℕ := r.2.popularity

/-- Descending comparison along a key, the order used by `nlargest`. -/
def keyGe {α β : Type} (key : α → β) [LinearOrder β] : α → α → Prop :=
  fun a b => key b ≤ key a

instance {α β : Type} (key : α → β) [LinearOrder β] : DecidableRel (keyGe key) :=
  fun a b => inferInstanceAs (Decidable (key b ≤ key a))

instance {α β : Type} (key : α → β) [LinearOrder β] : IsTotal α (keyGe key) :=
  ⟨fun a b => le_total (key b) (key a)⟩

instance {α β : Type} (key : α → β) [LinearOrder β] : IsTrans α (keyGe key) :=
  ⟨fun _ _ _ hab hbc => le_trans hbc hab⟩

/-- Model of `pandas.DataFrame.nlargest n` on a key column: stable descending
sort by the key, then the first `n` rows (pandas keep=first semantics). -/
def nlargestBy {α β : Type} (key : α → β) [LinearOrder β] (n : ℕ) (l : List α) :
    List α :=
  (l.insertionSort (keyGe key)).take n

/-- The boolean mask of app.py lines 134-138: a row enters the candidate pool
of `get_similar_songs_optimized` if its lower-cased genre is one of the
bucket's genres, or its danceability is at least the bucket's minimum
danceability minus 0.3, or its energy is at least the bucket's minimum energy
minus 0.3. -/
def agePredicate (prefs : AgePrefs) (s : Song) : Bool :=
  (prefs.genres.map lowerString).contains (lowerString s.track_genre)
    || decide (ratSub prefs.min_danceability (mkRat 3 10) ≤ s.danceability)
    || decide (ratSub prefs.min_energy (mkRat 3 10) ≤ s.energy)

/-- `age_filtered` immediately after app.py lines 134-138, before the
cap/expand cascade. -/
def age_prefilter (df : List Song) (age : ℤ) : List (ℕ × Song) :=
  (rows df).filter (fun r => agePredicate (age_groups (get_age_group age)) r.2)

/-- The candidate pool after the cap/expand cascade of app.py lines 140-146:
cap to the 5000 most popular filtered rows when the filter kept more than
5000, and fall back to the 2000 most popular rows of the whole catalog when
it kept fewer than 100. -/
def age_filtered (df : List Song) (age : ℤ) : List (ℕ × Song) :=
  let f0 := age_prefilter df age
  let f1 := if 5000 < f0.length then nlargestBy rowPopularity 5000 f0 else f0
  if f1.length < 100 then nlargestBy rowPopularity 2000 (rows df) else f1

/-- The candidate rows of app.py line 149: the pool with the selected song's
index removed.  The source keeps the integer indices; the model keeps the
whole rows, and `candidate_indices` projects out the indices. -/
def candidateRows (df : List Song) (selected_song_idx : ℕ) (age : ℤ) :
    List (ℕ × Song) :=
  (age_filtered df age).filter (fun r => r.1 != selected_song_idx)

/-- `candidate_indices` of app.py line 149. -/
def candidate_indices (df : List Song) (selected_song_idx : ℕ) (age : ℤ) :
    List ℕ :=
  (candidateRows df selected_song_idx age).map Prod.fst

/-- Positional row access `df.iloc[i][AUDIO_FEATURES]`. -/
def songFeatures (df : List Song) (i : ℕ) : Fin 9 → ℚ :=
  (df.getD i defaultSong).features

/-- Column mean of a stacked feature matrix (StandardScaler `mean_`). -/
def colMean (m : List (Fin 9 → ℚ)) (j : Fin 9) : ℚ :=
  (m.map (fun v => v j)).sum / m.length

/-- Column population variance of a stacked feature matrix
(StandardScaler `var_`, ddof = 0). -/
def colVar (m : List (Fin 9 → ℚ)) (j : Fin 9) : ℚ :=
  (m.map (fun v => (v j - colMean m j) ^ 2)).sum / m.length

/-- StandardScaler scaling of one matrix entry: subtract the column mean and
divide by the column standard deviation, a zero standard deviation being
replaced by 1 (sklearn handle_zeros_in_scale). -/
noncomputable def scaleEntry (m : List (Fin 9 → ℚ)) (j : Fin 9) (x : ℚ) : ℝ :=
  if colVar m j = 0 then ((x - colMean m j : ℚ) : ℝ)
  else ((x - colMean m j : ℚ) : ℝ) / Real.sqrt ((colVar m j : ℚ) : ℝ)

/-- StandardScaler fit_transform applied to one row of the stacked matrix
`m` (the statistics are those of `m` itself). -/
noncomputable def standardizeRow (m : List (Fin 9 → ℚ)) (v : Fin 9 → ℚ)
    (j : Fin 9) : ℝ :=
  scaleEntry m j (v j)

/-- Dot product of two real feature vectors. -/
noncomputable def dotProduct9 (x y : Fin 9 → ℝ) : ℝ := ∑ j, x j * y j

/-- Euclidean norm of a real feature vector. -/
noncomputable def norm9 (x : Fin 9 → ℝ) : ℝ := Real.sqrt (dotProduct9 x x)

/-- sklearn `cosine_similarity` of two vectors: the dot product of the
L2-normalized vectors, a zero norm being replaced by 1. -/
noncomputable def cosineSimilarity (x y : Fin 9 → ℝ) : ℝ :=
  dotProduct9 x y /
    ((if norm9 x = 0 then 1 else norm9 x) * (if norm9 y = 0 then 1 else norm9 y))

/-- `calculate_similarity_on_demand` (app.py lines 95-112): stack the selected
song's audio feature vector on top of the candidates' vectors, standardize
the stacked matrix, and return the cosine similarity of the scaled selected
row (row 0) against each scaled candidate row, as a flat list. -/
noncomputable def calculate_similarity_on_demand (df : List Song)
    (selected_song_idx : ℕ) (candidates : List ℕ) : List ℝ :=
  let all_features : List (Fin 9 → ℚ) :=
    songFeatures df selected_song_idx :: candidates.map (songFeatures df)
  let all_features_scaled : List (Fin 9 → ℝ) :=
    all_features.map (standardizeRow all_features)
  all_features_scaled.tail.map (cosineSimilarity all_features_scaled.headI)

/-- The maximum of a popularity column (`candidates_df.popularity.max()`);
0 on an empty pool, where the source value would be NaN. -/
def maxPopularity (l : List (ℕ × Song)) : ℕ :=
  (l.map rowPopularity).foldr max 0

/-- The float division `popularity / max_popularity` of app.py line 165, with
its definedness made explicit: dividing by a zero maximum yields NaN (the
pool's popularities are then all zero), so no rational value is returned. -/
def normalizedPopularity (l : List (ℕ × Song)) (p : ℕ) : Option ℚ :=
  if maxPopularity l = 0 then none else some ((p : ℚ) / (maxPopularity l : ℚ))

/-- A candidate row of `candidates_df` once app.py lines 158-166 have attached
its similarity_score and combined_score columns. -/
structure ScoredRow where
  idx : ℕ
  song : Song
  similarity_score : ℝ
  combined_score : ℝ

/-- Fallback element for positional access to lists of scored rows. -/
noncomputable def defaultScoredRow : ScoredRow := ⟨0, defaultSong, 0, 0⟩

/-- `candidates_df` with its similarity_score and combined_score columns
(app.py lines 154-166): the similarities are attached positionally, and the
combined score blends similarity (weight 0.7) with popularity divided by the
pool's maximum popularity (weight 0.3). -/
noncomputable def scoredCandidates (df : List Song) (selected_song_idx : ℕ)
    (age : ℤ) : List ScoredRow :=
  let cands := candidateRows df selected_song_idx age
  let sims := calculate_similarity_on_demand df selected_song_idx
    (candidate_indices df selected_song_idx age)
  let max_popularity := maxPopularity cands
  (cands.zip sims).map (fun p =>
    ⟨p.1.1, p.1.2, p.2,
     0.7 * p.2 + 0.3 * ((p.1.2.popularity : ℝ) / (max_popularity : ℝ))⟩)

/-- `recommendations` of app.py line 169: the top rows of the scored candidate
pool by combined score. -/
noncomputable def rankedRecommendations (df : List Song)
    (selected_song_idx : ℕ) (age : ℤ) (num_recommendations : ℕ) :
    List ScoredRow :=
  nlargestBy (fun sc => sc.combined_score) num_recommendations
    (scoredCandidates df selected_song_idx age)

/-- Model of `df.sample(n)` (without replacement): `perm` abstracts the random
permutation drawn by the RNG, and asking for more rows than the catalog has
raises ValueError, modelled as an error result. -/
def df_sample (l : List (ℕ × Song)) (n : ℕ) (perm : List ℕ) :
    Except String (List (ℕ × Song)) :=
  if n ≤ l.length then
    Except.ok ((perm.filterMap (fun i => l.get? i)).take n)
  else
    Except.error "Cannot take a larger sample than population when replace is False"

/-- The two shapes of recommendation list `get_similar_songs_optimized` can
return: a plain random sample of catalog rows (app.py line 152, which carries
no similarity or combined scores), or the similarity-ranked scored rows
(app.py line 171). -/
inductive Recommendations where
  | sampled (recs : List (ℕ × Song))
  | ranked (recs : List ScoredRow)

/-- `get_similar_songs_optimized` (app.py lines 126-171): build the
age-filtered candidate pool, drop the selected song; when nothing is left,
return a random sample of the whole catalog, otherwise return the top
`num_recommendations` candidates by combined score.  Both branches also
return the age group and its description. -/
noncomputable def get_similar_songs_optimized (df : List Song)
    (selected_song_idx : ℕ) (age : ℤ) (num_recommendations : ℕ)
    (perm : List ℕ) : Except String (Recommendations × AgeGroup × String) :=
  let age_group := get_age_group age
  let age_prefs := age_groups age_group
  if (candidateRows df selected_song_idx age).isEmpty then
    (df_sample (rows df) num_recommendations perm).map
      (fun s => (Recommendations.sampled s, age_group, age_prefs.description))
  else
    Except.ok
      (Recommendations.ranked
        (rankedRecommendations df selected_song_idx age num_recommendations),
       age_group, age_prefs.description)

/-- Modelled from the spec: the strict row filter of `recommend_songs`, the
age-based recommender of the repository's other app variant, which is not
under src/.  Per the spec it keeps a row by genre membership and the
bucket's three numeric thresholds (minimum danceability, energy, valence). -/
def recommendFilter (prefs : AgePrefs) (s : Song) : Bool :=
  (prefs.genres.map lowerString).contains (lowerString s.track_genre)
    && decide (prefs.min_danceability ≤ s.danceability)
    && decide (prefs.min_energy ≤ s.energy)
    && decide (prefs.min_valence ≤ s.valence)

/-- Modelled from the spec: the genre-only relaxation of the
`recommend_songs` filter. -/
def genreOnlyFilter (prefs : AgePrefs) (s : Song) : Bool :=
  (prefs.genres.map lowerString).contains (lowerString s.track_genre)

/-- Modelled from the spec: `recommend_songs`, the age-based recommender of
the other app variant, which is not under src/.  Per the spec it maps the age
to its bucket, filters rows on genre membership and the three numeric
thresholds, relaxes to a genre-only filter if that is empty, uses the whole
catalog if still empty, and returns the top `num_recommendations` rows by
popularity. -/
def recommend_songs (df : List Song) (age : ℤ) (num_recommendations : ℕ) :
    List (ℕ × Song) :=
  let prefs := age_groups (get_age_group age)
  let filtered0 := (rows df).filter (fun r => recommendFilter prefs r.2)
  let filtered1 :=
    if filtered0.isEmpty then (rows df).filter (fun r => genreOnlyFilter prefs r.2)
    else filtered0
  let filtered2 := if filtered1.isEmpty then rows df else filtered1
  nlargestBy rowPopularity num_recommendations filtered2

/-- Two-row catalog used as a concrete instance: a popular pop song and a
less popular rock song. -/
def songA : Song := mkSong "pop" 80 (mkRat 8 10) (mkRat 9 10) (mkRat 6 10)

/-- Second row of the concrete catalog. -/
def songB : Song := mkSong "rock" 60 (mkRat 7 10) (mkRat 8 10) (mkRat 5 10)

/-- A pop song with zero popularity, zero danceability, zero energy and zero
valence. -/
def songZ : Song := mkSong "pop" 0 0 0 0

/-- Concrete two-song catalog. -/
def exDf : List Song := [songA, songB]

/-- Concrete catalog whose songs all have zero popularity. -/
def exDfZero : List Song := [songZ, songZ]

theorem ratSub_eq (a b : ℚ) : ratSub a b = a - b := by
  have ha : ((a.den : ℚ)) ≠ 0 := by
    exact_mod_cast Rat.den_ne_zero a
  have hb : ((b.den : ℚ)) ≠ 0 := by
    exact_mod_cast Rat.den_ne_zero b
  rw [ratSub, Rat.mkRat_eq_div]
  push_cast
  conv_rhs => rw [← Rat.num_div_den a, ← Rat.num_div_den b]
  rw [div_sub_div _ _ ha hb]
  ring_nf

theorem length_nlargestBy {α β : Type} (key : α → β) [LinearOrder β] (n : ℕ)
    (l : List α) : (nlargestBy key n l).length = min n l.length := by
  unfold nlargestBy
  rw [List.length_take, (List.perm_insertionSort (keyGe key) l).length_eq]

theorem sorted_nlargestBy {α β : Type} (key : α → β) [LinearOrder β] (n : ℕ)
    (l : List α) : (nlargestBy key n l).Sorted (keyGe key) := by
  exact (List.sorted_insertionSort (keyGe key) l).sublist (List.take_sublist n _)

theorem mem_of_mem_nlargestBy {α β : Type} {key : α → β} [LinearOrder β]
    {n : ℕ} {l : List α} {x : α} (hx : x ∈ nlargestBy key n l) : x ∈ l :=
  (List.perm_insertionSort (keyGe key) l).mem_iff.1 (List.mem_of_mem_take hx)

theorem nlargestBy_key_le {α β : Type} {key : α → β} [LinearOrder β]
    {n : ℕ} {l : List α} {x y : α} (hy : y ∈ l) (hy2 : y ∉ nlargestBy key n l)
    (hx : x ∈ nlargestBy key n l) : key y ≤ key x := by
  have hsorted : (l.insertionSort (keyGe key)).Pairwise (keyGe key) :=
    List.sorted_insertionSort (keyGe key) l
  rw [← List.take_append_drop n (l.insertionSort (keyGe key))] at hsorted
  obtain ⟨-, -, hcross⟩ := List.pairwise_append.1 hsorted
  have hyL : y ∈ l.insertionSort (keyGe key) :=
    (List.perm_insertionSort (keyGe key) l).mem_iff.2 hy
  rw [← List.take_append_drop n (l.insertionSort (keyGe key))] at hyL
  rcases List.mem_append.1 hyL with hyt | hyd
  · exact absurd hyt hy2
  · exact hcross x hx y hyd

theorem length_nlargestBy_le {α β : Type} (key : α → β) [LinearOrder β]
    (n : ℕ) (l : List α) : (nlargestBy key n l).length ≤ n := by
  rw [length_nlargestBy]
  exact min_le_left _ _

theorem rowPop_le_max (l : List (ℕ × Song)) (r : ℕ × Song) (hr : r ∈ l) :
    rowPopularity r ≤ maxPopularity l := by
  unfold maxPopularity
  induction l with
  | nil => cases hr
  | cons a t ih =>
    simp only [List.map_cons, List.foldr_cons]
    rcases List.mem_cons.1 hr with rfl | hrt
    · exact le_max_left _ _
    · exact le_trans (ih hrt) (le_max_right _ _)

theorem range_filterMap_get {α : Type} (l : List α) :
    (List.range l.length).filterMap (fun i => l.get? i) = l := by
  induction l with
  | nil => rfl
  | cons a t ih =>
    rw [List.length_cons, List.range_succ_eq_map, List.filterMap_cons]
    simp only [List.get?_cons_zero, List.filterMap_map]
    have hcomp : ((fun i => (a :: t).get? i) ∘ Nat.succ) = fun i => t.get? i := by
      funext i
      simp [List.get?_cons_succ]
    rw [hcomp, ih]

theorem perm_filterMap_get {α : Type} {l : List α} {perm : List ℕ}
    (hp : perm.Perm (List.range l.length)) :
    (perm.filterMap (fun i => l.get? i)).Perm l := by
  have h := hp.filterMap (fun i => l.get? i)
  rwa [range_filterMap_get] at h

theorem calc_sim_eq_map (df : List Song) (i : ℕ) (cs : List ℕ) :
    calculate_similarity_on_demand df i cs =
      cs.map (fun c =>
        cosineSimilarity
          (standardizeRow (songFeatures df i :: cs.map (songFeatures df))
            (songFeatures df i))
          (standardizeRow (songFeatures df i :: cs.map (songFeatures df))
            (songFeatures df c))) := by
  unfold calculate_similarity_on_demand
  simp only [List.map_cons, List.tail_cons, List.headI_cons, List.map_map]
  rfl

theorem calc_sim_length (df : List Song) (i : ℕ) (cs : List ℕ) :
    (calculate_similarity_on_demand df i cs).length = cs.length := by
  rw [calc_sim_eq_map, List.length_map]

theorem calc_sim_getD (df : List Song) (i : ℕ) (cs : List ℕ) (k : ℕ)
    (hk : k < cs.length) :
    (calculate_similarity_on_demand df i cs).getD k 0 =
      cosineSimilarity
        (standardizeRow (songFeatures df i :: cs.map (songFeatures df))
          (songFeatures df i))
        (standardizeRow (songFeatures df i :: cs.map (songFeatures df))
          (songFeatures df (cs.getD k 0))) := by
  rw [calc_sim_eq_map]
  rw [List.getD_eq_getElem _ _ (by simpa using hk), List.getElem_map,
    List.getD_eq_getElem _ _ hk]

theorem scored_length (df : List Song) (idx : ℕ) (age : ℤ) :
    (scoredCandidates df idx age).length = (candidateRows df idx age).length := by
  have hsims : (calculate_similarity_on_demand df idx
      (candidate_indices df idx age)).length = (candidateRows df idx age).length := by
    rw [calc_sim_length, candidate_indices, List.length_map]
  simp only [scoredCandidates, List.length_map, List.length_zip, hsims, min_self]

theorem scored_getD (df : List Song) (idx : ℕ) (age : ℤ) (k : ℕ)
    (hk : k < (candidateRows df idx age).length) :
    (scoredCandidates df idx age).getD k defaultScoredRow =
      ⟨((candidateRows df idx age).getD k (0, defaultSong)).1,
       ((candidateRows df idx age).getD k (0, defaultSong)).2,
       (calculate_similarity_on_demand df idx (candidate_indices df idx age)).getD k 0,
       0.7 * (calculate_similarity_on_demand df idx (candidate_indices df idx age)).getD k 0 +
         0.3 * ((((candidateRows df idx age).getD k (0, defaultSong)).2.popularity : ℝ) /
           (maxPopularity (candidateRows df idx age) : ℝ))⟩ := by
  have hsims : (calculate_similarity_on_demand df idx
      (candidate_indices df idx age)).length = (candidateRows df idx age).length := by
    rw [calc_sim_length, candidate_indices, List.length_map]
  have hlen : k < (scoredCandidates df idx age).length := by
    rw [scored_length]
    exact hk
  simp only [scoredCandidates] at hlen ⊢
  rw [List.getD_eq_getElem _ _ hlen, List.getElem_map, List.getElem_zip,
    List.getD_eq_getElem _ _ hk, List.getD_eq_getElem _ _ (by rw [hsims]; exact hk)]

theorem mem_scoredCandidates (df : List Song) (idx : ℕ) (age : ℤ)
    {sc : ScoredRow} (hsc : sc ∈ scoredCandidates df idx age) :
    ∃ r ∈ candidateRows df idx age, sc.idx = r.1 := by
  simp only [scoredCandidates, List.mem_map] at hsc
  obtain ⟨p, hp, rfl⟩ := hsc
  exact ⟨p.1, (List.of_mem_zip hp).1, rfl⟩

/-- Claim C7: get_age_group is total on ages: every age is mapped to exactly
one of the four buckets Teen, Young Adult, Adult, Senior, and the age_groups
table supplies, for each bucket, its fixed genre set and its minimum
danceability, energy and valence thresholds. -/
theorem C7_get_age_group_total (age : ℤ) :
    (get_age_group age = AgeGroup.Teen ∨ get_age_group age = AgeGroup.YoungAdult ∨
      get_age_group age = AgeGroup.Adult ∨ get_age_group age = AgeGroup.Senior) ∧
    age_groups AgeGroup.Teen =
      ⟨["pop", "hip-hop", "edm", "dance", "electronic"], 0.6, 0.7, 0.5,
       "High energy, danceable pop and hip-hop hits"⟩ ∧
    age_groups AgeGroup.YoungAdult =
      ⟨["pop", "indie", "rock", "alternative", "hip-hop"], 0.5, 0.6, 0.4,
       "Mix of popular and indie tracks with good energy"⟩ ∧
    age_groups AgeGroup.Adult =
      ⟨["rock", "jazz", "acoustic", "blues", "folk", "country"], 0.4, 0.5, 0.3,
       "More mature sounds with acoustic and rock elements"⟩ ∧
    age_groups AgeGroup.Senior =
      ⟨["classical", "jazz", "acoustic", "blues", "folk", "oldies"], 0.3, 0.4, 0.3,
       "Timeless classics and acoustic sounds"⟩ := by
  refine ⟨?_, ?_, ?_, ?_, ?_⟩
  · unfold get_age_group
    split
    · exact Or.inl rfl
    · split
      · exact Or.inr (Or.inl rfl)
      · split
        · exact Or.inr (Or.inr (Or.inl rfl))
        · exact Or.inr (Or.inr (Or.inr rfl))
  all_goals
    simp only [age_groups, AgePrefs.mk.injEq, Rat.mkRat_eq_div]
    norm_num

/-- Claim C6: for every dataset with at least one row and every age, the
candidate pool produced by the cap/expand cascade (before the selected song
is removed) has at most 5000 rows and at least min 100 (number of rows). -/
theorem C6_pool_size_bounds (df : List Song) (age : ℤ) (h : df ≠ []) :
    (age_filtered df age).length ≤ 5000 ∧
    min 100 df.length ≤ (age_filtered df age).length := by
  have hrows : (rows df).length = df.length := List.enum_length
  have e1 := length_nlargestBy rowPopularity 5000 (age_prefilter df age)
  have e2 := length_nlargestBy rowPopularity 2000 (rows df)
  simp only [age_filtered]
  by_cases h1 : 5000 < (age_prefilter df age).length
  · rw [if_pos h1]
    by_cases h2 : (nlargestBy rowPopularity 5000 (age_prefilter df age)).length < 100
    · rw [if_pos h2, e2, hrows]
      omega
    · rw [if_neg h2]
      omega
  · rw [if_neg h1]
    by_cases h2 : (age_prefilter df age).length < 100
    · rw [if_pos h2, e2, hrows]
      omega
    · rw [if_neg h2]
      omega

theorem C6_pool_size_bounds_witness :
    exDf ≠ [] ∧
    ((age_filtered exDf 40).length ≤ 5000 ∧
      min 100 exDf.length ≤ (age_filtered exDf 40).length) :=
  ⟨by decide, C6_pool_size_bounds exDf 40 (by decide)⟩

/-- Claim C3 is false: the pre-filter of get_similar_songs_optimized is not
the age-based recommender's heuristic (genre membership and the three
minimum thresholds).  Concretely, for age 15 (Teen) a pop song with zero
danceability, energy and valence passes the pre-filter, but fails the
recommender's filter. -/
theorem C3_prefilter_counterexample :
    age_prefilter [songZ] 15 ≠
      (rows [songZ]).filter
        (fun r => recommendFilter (age_groups (get_age_group 15)) r.2) ∧
    age_prefilter [songZ] 15 = [(0, songZ)] ∧
    (rows [songZ]).filter
      (fun r => recommendFilter (age_groups (get_age_group 15)) r.2) = [] := by
  decide

/-- Claim C3 amended: get_similar_songs_optimized pre-filters with a relaxed
disjunctive variant of the age heuristic: a row is kept iff its lower-cased
genre is in the bucket's genre set, or its danceability is at least the
bucket's minimum danceability minus 0.3, or its energy is at least the
bucket's minimum energy minus 0.3; the valence threshold is not consulted. -/
theorem C3_prefilter_amended (df : List Song) (age : ℤ) (r : ℕ × Song) :
    r ∈ age_prefilter df age ↔
      r ∈ rows df ∧
        (lowerString r.2.track_genre ∈
            ((age_groups (get_age_group age)).genres.map lowerString) ∨
          (age_groups (get_age_group age)).min_danceability - 0.3 ≤ r.2.danceability ∨
          (age_groups (get_age_group age)).min_energy - 0.3 ≤ r.2.energy) := by
  have h03 : (mkRat 3 10 : ℚ) = 0.3 := by
    rw [Rat.mkRat_eq_div]
    norm_num
  unfold age_prefilter agePredicate
  rw [List.mem_filter]
  simp [ratSub_eq, h03, List.contains_iff_exists_mem_beq, beq_iff_eq]
  intro _
  exact or_assoc

/-- Claim C4 is false as stated: on a non-empty candidate pool whose songs
all have popularity 0, the maximum popularity is 0 and the float division
popularity / max_popularity is undefined (NaN), so the normalized popularity
is not a well-defined value of [0,1] for any candidate. -/
theorem C4_normalization_counterexample :
    candidateRows exDfZero 0 15 ≠ [] ∧
    ∀ r ∈ candidateRows exDfZero 0 15,
      normalizedPopularity (candidateRows exDfZero 0 15) r.2.popularity = none := by
  decide

/-- Claim C4 amended: whenever the maximum candidate popularity is positive,
each candidate's popularity divided by the maximum candidate popularity is a
well-defined value between 0 and 1 inclusive. -/
theorem C4_normalization_amended (df : List Song) (idx : ℕ) (age : ℤ)
    (h : 0 < maxPopularity (candidateRows df idx age)) :
    ∀ r ∈ candidateRows df idx age,
      ∃ q : ℚ,
        normalizedPopularity (candidateRows df idx age) r.2.popularity = some q ∧
        0 ≤ q ∧ q ≤ 1 := by
  intro r hr
  have hmax : maxPopularity (candidateRows df idx age) ≠ 0 := Nat.pos_iff_ne_zero.1 h
  have hmaxQ : (0 : ℚ) < (maxPopularity (candidateRows df idx age) : ℚ) := by
    exact_mod_cast h
  refine ⟨(r.2.popularity : ℚ) / (maxPopularity (candidateRows df idx age) : ℚ), ?_, ?_, ?_⟩
  · unfold normalizedPopularity
    rw [if_neg hmax]
  · exact div_nonneg (Nat.cast_nonneg _) (Nat.cast_nonneg _)
  · rw [div_le_one hmaxQ]
    exact_mod_cast rowPop_le_max (candidateRows df idx age) r hr

theorem C4_normalization_amended_witness :
    0 < maxPopularity (candidateRows exDf 0 25) ∧
    ∀ r ∈ candidateRows exDf 0 25,
      ∃ q : ℚ,
        normalizedPopularity (candidateRows exDf 0 25) r.2.popularity = some q ∧
        0 ≤ q ∧ q ≤ 1 :=
  ⟨by decide, C4_normalization_amended exDf 0 25 (by decide)⟩

/-- Claim C8 (spec-modelled, recommend_songs is not under src/): the
recommend_songs operation filters rows on genre membership and the three
numeric thresholds of the age bucket, relaxes to a genre-only filter if that
is empty, uses the whole catalog if still empty, and returns the top
`num_recommendations` rows of the chosen pool by popularity, in descending
popularity order. -/
theorem C8_recommend_songs_cascade (df : List Song) (age : ℤ) (n : ℕ) :
    recommend_songs df age n =
      nlargestBy rowPopularity n
        (if (rows df).filter
            (fun r => recommendFilter (age_groups (get_age_group age)) r.2) = []
         then
           (if (rows df).filter
               (fun r => genreOnlyFilter (age_groups (get_age_group age)) r.2) = []
            then rows df
            else (rows df).filter
              (fun r => genreOnlyFilter (age_groups (get_age_group age)) r.2))
         else (rows df).filter
           (fun r => recommendFilter (age_groups (get_age_group age)) r.2)) ∧
    (recommend_songs df age n).Sorted
      (fun a b => rowPopularity b ≤ rowPopularity a) ∧
    (recommend_songs df age n).length ≤ n := by
  refine ⟨?_, ?_, ?_⟩
  · simp only [recommend_songs, List.isEmpty_iff]
    congr 1
    split_ifs <;> simp_all
  · exact sorted_nlargestBy rowPopularity n _
  · exact length_nlargestBy_le rowPopularity n _

/-- Claim C10: when the candidate pool is empty after removing the selected
song, get_similar_songs_optimized falls back to a random sample of
`num_recommendations` rows of the whole catalog (score-free rows which may
include the selected song itself, as the one-song catalog instance in the
last conjunct shows), together with the age group and its description, and
this fallback fails (ValueError) when the catalog has fewer than
`num_recommendations` rows. -/
theorem C10_empty_pool_fallback (df : List Song) (idx : ℕ) (age : ℤ) (n : ℕ)
    (perm : List ℕ) (hempty : candidateRows df idx age = [])
    (hperm : perm.Perm (List.range df.length)) :
    (n ≤ df.length →
      ∃ s, get_similar_songs_optimized df idx age n perm =
          Except.ok (Recommendations.sampled s, get_age_group age,
            (age_groups (get_age_group age)).description) ∧
        s.length = n ∧ ∀ r ∈ s, r ∈ rows df) ∧
    (df.length < n →
      get_similar_songs_optimized df idx age n perm =
        Except.error
          "Cannot take a larger sample than population when replace is False") ∧
    (∃ s, get_similar_songs_optimized [songA] 0 25 1 [0] =
        Except.ok (Recommendations.sampled s, AgeGroup.YoungAdult,
          "Mix of popular and indie tracks with good energy") ∧
      (0, songA) ∈ s) := by
  have hrows : (rows df).length = df.length := List.enum_length
  have hsample : (perm.filterMap (fun i => (rows df).get? i)).Perm (rows df) :=
    perm_filterMap_get (by rw [hrows]; exact hperm)
  have hbranch : (candidateRows df idx age).isEmpty = true := by
    rw [hempty]
    rfl
  refine ⟨?_, ?_, ?_⟩
  · intro hn
    refine ⟨(perm.filterMap (fun i => (rows df).get? i)).take n, ?_, ?_, ?_⟩
    · simp only [get_similar_songs_optimized, hbranch, if_pos, df_sample,
        hrows, hn, if_true]
      rfl
    · rw [List.length_take, hsample.length_eq, hrows]
      omega
    · intro r hr
      exact hsample.mem_iff.1 (List.mem_of_mem_take hr)
  · intro hn
    simp only [get_similar_songs_optimized, hbranch, if_pos, df_sample, hrows]
    rw [if_neg (by omega)]
    rfl
  · exact ⟨[(0, songA)], by rfl, by decide⟩

theorem C10_empty_pool_fallback_witness :
    candidateRows [songA] 0 25 = [] ∧
    List.Perm [0] (List.range ([songA] : List Song).length) ∧
    ((1 ≤ ([songA] : List Song).length →
      ∃ s, get_similar_songs_optimized [songA] 0 25 1 [0] =
          Except.ok (Recommendations.sampled s, get_age_group 25,
            (age_groups (get_age_group 25)).description) ∧
        s.length = 1 ∧ ∀ r ∈ s, r ∈ rows [songA]) ∧
    (([songA] : List Song).length < 1 →
      get_similar_songs_optimized [songA] 0 25 1 [0] =
        Except.error
          "Cannot take a larger sample than population when replace is False") ∧
    (∃ s, get_similar_songs_optimized [songA] 0 25 1 [0] =
        Except.ok (Recommendations.sampled s, AgeGroup.YoungAdult,
          "Mix of popular and indie tracks with good energy") ∧
      (0, songA) ∈ s)) :=
  ⟨by decide, by decide, C10_empty_pool_fallback [songA] 0 25 1 [0] (by decide) (by decide)⟩

/-- Claim C9: on the similarity-ranking path (non-empty candidate pool) the
selected song is never its own candidate: its index is excluded from the
candidate rows and indices, so no returned recommendation carries it. -/
theorem C9_selected_song_excluded (df : List Song) (idx : ℕ) (age : ℤ) (n : ℕ)
    (h : candidateRows df idx age ≠ []) :
    (∀ r ∈ candidateRows df idx age, r.1 ≠ idx) ∧
    idx ∉ candidate_indices df idx age ∧
    (∀ sc ∈ rankedRecommendations df idx age n, sc.idx ≠ idx) := by
  have h1 : ∀ r ∈ candidateRows df idx age, r.1 ≠ idx := by
    intro r hr
    have h2 := (List.mem_filter.1 hr).2
    simpa using h2
  refine ⟨h1, ?_, ?_⟩
  · intro hmem
    simp only [candidate_indices, List.mem_map] at hmem
    obtain ⟨r, hr, hre⟩ := hmem
    exact h1 r hr hre
  · intro sc hsc
    obtain ⟨r, hr, hidx⟩ := mem_scoredCandidates df idx age (mem_of_mem_nlargestBy hsc)
    rw [hidx]
    exact h1 r hr

theorem C9_selected_song_excluded_witness :
    candidateRows exDf 0 25 ≠ [] ∧
    ((∀ r ∈ candidateRows exDf 0 25, r.1 ≠ 0) ∧
      0 ∉ candidate_indices exDf 0 25 ∧
      (∀ sc ∈ rankedRecommendations exDf 0 25 5, sc.idx ≠ 0)) :=
  ⟨by decide, C9_selected_song_excluded exDf 0 25 5 (by decide)⟩

/-- Claim C5: calculate_similarity_on_demand standardizes the 9-dimensional
feature vectors of the selected song stacked with all candidates, and
returns a flat list with, for each candidate in order, the cosine similarity
of the scaled selected song against that scaled candidate; its length is the
number of candidates. -/
theorem C5_similarity_on_demand (df : List Song) (i : ℕ) (cs : List ℕ)
    (h : cs ≠ []) :
    AUDIO_FEATURES.length = 9 ∧
    (calculate_similarity_on_demand df i cs).length = cs.length ∧
    ∀ k, k < cs.length →
      (calculate_similarity_on_demand df i cs).getD k 0 =
        cosineSimilarity
          (standardizeRow (songFeatures df i :: cs.map (songFeatures df))
            (songFeatures df i))
          (standardizeRow (songFeatures df i :: cs.map (songFeatures df))
            (songFeatures df (cs.getD k 0))) :=
  ⟨rfl, calc_sim_length df i cs, fun k hk => calc_sim_getD df i cs k hk⟩

theorem C5_similarity_on_demand_witness :
    ([1] : List ℕ) ≠ [] ∧
    (AUDIO_FEATURES.length = 9 ∧
      (calculate_similarity_on_demand exDf 0 [1]).length = ([1] : List ℕ).length ∧
      ∀ k, k < ([1] : List ℕ).length →
        (calculate_similarity_on_demand exDf 0 [1]).getD k 0 =
          cosineSimilarity
            (standardizeRow (songFeatures exDf 0 :: ([1] : List ℕ).map (songFeatures exDf))
              (songFeatures exDf 0))
            (standardizeRow (songFeatures exDf 0 :: ([1] : List ℕ).map (songFeatures exDf))
              (songFeatures exDf (([1] : List ℕ).getD k 0)))) :=
  ⟨by decide, C5_similarity_on_demand exDf 0 [1] (by decide)⟩

set_option maxHeartbeats 1000000 in
/-- Claim C2: on a non-empty candidate pool, each candidate's combined score
is 0.7 times its cosine-similarity score against the selected song plus 0.3
times its popularity divided by the maximum popularity of the candidates
(the division being real division, see C4 for its float definedness). -/
theorem C2_combined_score_formula (df : List Song) (idx : ℕ) (age : ℤ)
    (h : candidateRows df idx age ≠ []) :
    ∀ k, k < (candidateRows df idx age).length →
      ((scoredCandidates df idx age).getD k defaultScoredRow).combined_score =
        0.7 * ((scoredCandidates df idx age).getD k defaultScoredRow).similarity_score
          + 0.3 * ((((scoredCandidates df idx age).getD k
              defaultScoredRow).song.popularity : ℝ) /
            (maxPopularity (candidateRows df idx age) : ℝ)) ∧
      ((scoredCandidates df idx age).getD k defaultScoredRow).similarity_score =
        cosineSimilarity
          (standardizeRow
            (songFeatures df idx ::
              (candidate_indices df idx age).map (songFeatures df))
            (songFeatures df idx))
          (standardizeRow
            (songFeatures df idx ::
              (candidate_indices df idx age).map (songFeatures df))
            (songFeatures df ((candidate_indices df idx age).getD k 0))) := by
  intro k hk
  have hkidx : k < (candidate_indices df idx age).length := by
    rw [candidate_indices, List.length_map]
    exact hk
  rw [scored_getD df idx age k hk]
  exact ⟨rfl, calc_sim_getD df idx (candidate_indices df idx age) k hkidx⟩

theorem C2_combined_score_formula_witness :
    candidateRows exDf 0 25 ≠ [] ∧
    ∀ k, k < (candidateRows exDf 0 25).length →
      ((scoredCandidates exDf 0 25).getD k defaultScoredRow).combined_score =
        0.7 * ((scoredCandidates exDf 0 25).getD k defaultScoredRow).similarity_score
          + 0.3 * ((((scoredCandidates exDf 0 25).getD k
              defaultScoredRow).song.popularity : ℝ) /
            (maxPopularity (candidateRows exDf 0 25) : ℝ)) ∧
      ((scoredCandidates exDf 0 25).getD k defaultScoredRow).similarity_score =
        cosineSimilarity
          (standardizeRow
            (songFeatures exDf 0 ::
              (candidate_indices exDf 0 25).map (songFeatures exDf))
            (songFeatures exDf 0))
          (standardizeRow
            (songFeatures exDf 0 ::
              (candidate_indices exDf 0 25).map (songFeatures exDf))
            (songFeatures exDf ((candidate_indices exDf 0 25).getD k 0))) :=
  ⟨by decide, C2_combined_score_formula exDf 0 25 (by decide)⟩

/-- Claim C1: on a non-empty candidate pool, get_similar_songs_optimized
returns the top num_recommendations candidates by combined score (all of
them when fewer exist), in descending combined-score order: the returned
list is exactly as long as allowed, sorted descending, drawn from the scored
candidates, and every returned score is at least every non-returned score. -/
theorem C1_top_n_by_combined_score (df : List Song) (idx : ℕ) (age : ℤ)
    (n : ℕ) (perm : List ℕ) (h : candidateRows df idx age ≠ []) :
    get_similar_songs_optimized df idx age n perm =
      Except.ok (Recommendations.ranked (rankedRecommendations df idx age n),
        get_age_group age, (age_groups (get_age_group age)).description) ∧
    (scoredCandidates df idx age).length = (candidateRows df idx age).length ∧
    (rankedRecommendations df idx age n).length =
      min n (scoredCandidates df idx age).length ∧
    (rankedRecommendations df idx age n).Sorted
      (fun a b => b.combined_score ≤ a.combined_score) ∧
    (∀ x ∈ rankedRecommendations df idx age n, x ∈ scoredCandidates df idx age) ∧
    (∀ y ∈ scoredCandidates df idx age, y ∉ rankedRecommendations df idx age n →
      ∀ x ∈ rankedRecommendations df idx age n,
        y.combined_score ≤ x.combined_score) := by
  have hne : (candidateRows df idx age).isEmpty = false := by
    cases hcr : candidateRows df idx age
    · exact absurd hcr h
    · rfl
  refine ⟨?_, scored_length df idx age, ?_, ?_, ?_, ?_⟩
  · simp only [get_similar_songs_optimized, hne, Bool.false_eq_true, if_false]
  · rw [rankedRecommendations, length_nlargestBy]
  · exact sorted_nlargestBy (fun sc => sc.combined_score) n (scoredCandidates df idx age)
  · intro x hx
    exact mem_of_mem_nlargestBy hx
  · intro y hy hynot x hx
    exact nlargestBy_key_le hy hynot hx

theorem C1_top_n_by_combined_score_witness :
    candidateRows exDf 0 25 ≠ [] ∧
    (get_similar_songs_optimized exDf 0 25 5 [] =
      Except.ok (Recommendations.ranked (rankedRecommendations exDf 0 25 5),
        get_age_group 25, (age_groups (get_age_group 25)).description) ∧
    (scoredCandidates exDf 0 25).length = (candidateRows exDf 0 25).length ∧
    (rankedRecommendations exDf 0 25 5).length =
      min 5 (scoredCandidates exDf 0 25).length ∧
    (rankedRecommendations exDf 0 25 5).Sorted
      (fun a b => b.combined_score ≤ a.combined_score) ∧
    (∀ x ∈ rankedRecommendations exDf 0 25 5, x ∈ scoredCandidates exDf 0 25) ∧
    (∀ y ∈ scoredCandidates exDf 0 25, y ∉ rankedRecommendations exDf 0 25 5 →
      ∀ x ∈ rankedRecommendations exDf 0 25 5,
        y.combined_score ≤ x.combined_score)) :=
  ⟨by decide, C1_top_n_by_combined_score exDf 0 25 5 [] (by decide)⟩
